import Mathlib

/-!
# Shallow embedding of the Weaver.X command/confirmation core

This file embeds, in Lean 4, the core of the Weaver.X client:

* `src/src/utils/sheetController.js` — the Capability Layer: nine named
  spreadsheet operations over a FortuneSheet/luckysheet handle;
* the main application component (`src/unnamed/part_000`) — the Command
  Executor (`executeUICommand`), the Command Queue Poller
  (`pollUICommands`), the Response Dispatcher (the response-handling part
  of `handleSendMessage`) and the Confirmation handlers
  (`handleConfirmOverwrite`, `handleConfirmSaveAs`, `handleConfirmCancel`).

JavaScript numbers are modelled as `Int` (every numeric value that the
reviewed code manipulates in these paths is an integer); `Number(·)`
coercion that yields NaN is modelled as `Option.none`.  Network calls are
modelled as explicit outcome parameters (`NetOutcome`), and the
asynchronous helper functions `loadTables` / `loadTableData` and the
backend requests are modelled as emitted `Effect`s.  The spreadsheet
widget primitives (`setCellValue`, `setFrozen`, `hideRow`, `showRow`,
`orderByRow`, `setBorderInfo`, `setRangeShow`, `setColumnWidth`) are the
external boundary of §6 of the spec; they are modelled as explicit state
updates on a `SheetState`.
-/

/-- A primitive JavaScript value as it occurs in sheet cells and command
parameters: an (integer) number, a string, or `undefined`. -/
inductive JsVal where
  | vNum (n : Int)
  | vStr (s : String)
  | undef
deriving Repr, DecidableEq

/-- JavaScript truthiness on primitive values: `0`, `""` and `undefined`
are falsy. -/
def jsFalsy : JsVal → Bool
  | .vNum n => n == 0
  | .vStr s => s == ""
  | .undef => true

/-- `String(·)` on a primitive value. -/
def jsToString : JsVal → String
  | .vNum n => toString n
  | .vStr s => s
  | .undef => "undefined"

/-- `String(·)` on a boolean (used by template literals). -/
def jsBoolStr (b : Bool) : String := if b then "true" else "false"

/-- `Number(·)` on a string: the empty/whitespace string is `0`, integer
literals parse, anything else is NaN (`none`).  (The reviewed code only
ever produces integer-valued cells on these paths.) -/
def jsStrToNum (s : String) : Option Int :=
  let t := s.trim
  if t = "" then some 0 else t.toInt?

/-- `Number(·)` on a primitive value; `none` is NaN. -/
def jsValNumber : JsVal → Option Int
  | .vNum n => some n
  | .vStr s => jsStrToNum s
  | .undef => none

/-- `String.prototype.includes`: substring containment. -/
def jsIncludes (s sub : String) : Bool :=
  sub == "" || (s.splitOn sub).length ≥ 2

/-- A sheet cell as the capabilities see it: `v` (value), `m` (display
text) and the style fields the capabilities write (`bl` bold, `fc` font
color, `bg` background color).  An absent field is `JsVal.undef` /
`none`. -/
structure Cell where
  v : JsVal := .undef
  m : JsVal := .undef
  bl : Option Nat := none
  fc : Option String := none
  bg : Option String := none
deriving Repr, DecidableEq

/-- A grid row; an empty slot (`none`) is an undefined cell. -/
abbrev Row := List (Option Cell)

/-- The full grid returned by `getSheetData()`. -/
abbrev Grid := List Row

/-- A style patch passed to `setCellValue(r, c, {...})`. -/
structure StylePatch where
  bl : Option Nat := none
  fc : Option String := none
  bg : Option String := none
deriving Repr, DecidableEq

/-- Merging a style patch into a cell slot: present patch fields
overwrite, absent ones keep the cell's fields; patching an empty slot
creates a cell. -/
def applyPatch (slot : Option Cell) (p : StylePatch) : Option Cell :=
  let c := slot.getD {}
  some { c with
    bl := match p.bl with | some x => some x | none => c.bl
    fc := match p.fc with | some x => some x | none => c.fc
    bg := match p.bg with | some x => some x | none => c.bg }

/-- Pad a row with empty slots up to length `n`. -/
def padTo (row : Row) (n : Nat) : Row :=
  row ++ List.replicate (n - row.length) none

/-- The `setCellValue(r, c, patch)` widget primitive: update the slot at
`(r, c)`, creating the cell (and the slot) if needed. -/
def setCellPatch (g : Grid) (r c : Nat) (p : StylePatch) : Grid :=
  match g.get? r with
  | none => g
  | some row =>
      let row := padTo row (c + 1)
      g.set r (row.set c (applyPatch (row.getD c none) p))

/-- The value a JS bracket lookup on the `styleMap` object literal can
produce and hand to `setBorderInfo` as the `style` field: a number from
an own property (`thin`/`medium`/`thick`, or the `|| 2` fallback), or —
because bracket lookup traverses the prototype chain — the truthy value
inherited from `Object.prototype` under the looked-up key (`protoVal k`
stands for that inherited function/object, e.g. `Object.prototype.toString`
for `k = "toString"`). -/
inductive BorderStyleVal where
  | num (n : Nat)
  | protoVal (key : String)
deriving Repr, DecidableEq

/-- The property keys of `Object.prototype` that a bracket lookup on a
plain object literal reaches through the prototype chain; each holds a
truthy value (a built-in function, or `Object.prototype` itself for
`__proto__`). -/
def objectProtoKeys : List String :=
  ["constructor", "hasOwnProperty", "isPrototypeOf", "propertyIsEnumerable",
   "toLocaleString", "toString", "valueOf", "__defineGetter__",
   "__defineSetter__", "__lookupGetter__", "__lookupSetter__", "__proto__"]

/-- A border record as passed to `setBorderInfo`. -/
structure Border where
  rangeType : String
  borderType : String
  style : BorderStyleVal
  color : String
deriving Repr, DecidableEq

/-- The state of the spreadsheet widget instance. `grid` is what
`getSheetData()` returns (`none` models a null return); the other fields
record the effects of the widget primitives. -/
structure SheetState where
  grid : Option Grid := none
  frozen : Option (String × Int × Int) := none
  colWidths : List (Nat × Nat) := []
  selection : Option (Int × Int × Int × Int) := none
  borders : List Border := []
  hiddenRows : List Nat := []
deriving Repr, DecidableEq

/-- The global `window.luckysheet` handle; `none` when the sheet widget is
not available. -/
abbrev Handle := Option SheetState

/-- The uniform outcome record of a capability / executed command. -/
structure ExecResult where
  success : Bool
  message : Option String := none
  error : Option String := none
deriving Repr, DecidableEq

/-- The text the column-lookup loop compares against the requested column
name: `headerRow[c]?.v || headerRow[c]?.m || headerRow[c]`, then
`String(·)`.  A cell whose `v` and `m` are both falsy falls back to the
cell object itself, which stringifies to `"[object Object]"`; an empty
slot stringifies to `"undefined"`. -/
def headerText (slot : Option Cell) : String :=
  match slot with
  | none => "undefined"
  | some c =>
      if ¬ jsFalsy c.v then jsToString c.v
      else if ¬ jsFalsy c.m then jsToString c.m
      else "[object Object]"

/-- The shared column-lookup loop of `setConditionalFormat`,
`hideRowsWhere` and `sortByColumn`: scan the header row left to right,
first slot whose `headerText` equals the requested name wins. -/
def findColIndex : Row → String → Option Nat
  | [], _ => none
  | slot :: rest, name =>
      if headerText slot = name then some 0
      else (findColIndex rest name).map (fun i => i + 1)

/-- The value a data-row cell contributes to a condition:
`cell?.v ?? cell?.m ?? cell` — the first non-undefined of `v`, `m`, or
the cell object itself (`objRef`); an empty slot is `undefined`. -/
inductive CellVal where
  | prim (x : JsVal)
  | objRef
  | undef
deriving Repr, DecidableEq

/-- `cell?.v ?? cell?.m ?? cell` for a grid slot. -/
def condCellVal (slot : Option Cell) : CellVal :=
  match slot with
  | none => .undef
  | some c =>
      if c.v ≠ .undef then .prim c.v
      else if c.m ≠ .undef then .prim c.m
      else .objRef

/-- `cell?.v ?? cell?.m ?? cell ?? ''` as used by `hideRowsWhere`. -/
def hideCellVal (slot : Option Cell) : CellVal :=
  match condCellVal slot with
  | .undef => .prim (.vStr "")
  | x => x

/-- `Number(·)` on a condition value; objects and `undefined` are NaN. -/
def cellValNumber : CellVal → Option Int
  | .prim x => jsValNumber x
  | .objRef => none
  | .undef => none

/-- `String(·)` on a condition value. -/
def cellValToString : CellVal → String
  | .prim x => jsToString x
  | .objRef => "[object Object]"
  | .undef => "undefined"

/-- JavaScript loose equality `==` between a cell's condition value and a
command's comparison value, restricted to the value shapes that occur
here (numbers, strings, undefined, and the cell-object fallback, which
compares via its string form `"[object Object]"`). -/
def looseEq : CellVal → JsVal → Bool
  | .prim (.vNum n), .vNum m => n == m
  | .prim (.vStr s), .vStr t => s == t
  | .prim (.vNum n), .vStr t => jsStrToNum t == some n
  | .prim (.vStr s), .vNum m => jsStrToNum s == some m
  | .prim .undef, .undef => true
  | .prim _, _ => false
  | .undef, .undef => true
  | .undef, _ => false
  | .objRef, .vStr t => t == "[object Object]"
  | .objRef, _ => false

/-- The operator switch of `setConditionalFormat`: `<` and `>` compare
`Number(cellValue)` with `Number(value)` (false on NaN), `=`/`==` is
loose equality, `contains` is substring containment of the string forms,
and any other operator never matches. -/
def matchesOp (op : String) (cv : CellVal) (value : JsVal) : Bool :=
  match op with
  | "<" =>
      match cellValNumber cv, jsValNumber value with
      | some a, some b => a < b
      | _, _ => false
  | ">" =>
      match cellValNumber cv, jsValNumber value with
      | some a, some b => a > b
      | _, _ => false
  | "=" => looseEq cv value
  | "==" => looseEq cv value
  | "contains" => jsIncludes (cellValToString cv) (jsToString value)
  | _ => false

/-- `SheetController.setHeaderStyle(bold = true, bgColor = '#e8e8e8')`. -/
def setHeaderStyle (bold : Option Bool) (bgColor : Option String) (h : Handle) :
    ExecResult × Handle :=
  match h with
  | none => ({ success := false, error := some "Sheet not available" }, h)
  | some st =>
      match st.grid with
      | none => ({ success := false, error := some "No data" }, h)
      | some d =>
          if d.length = 0 then ({ success := false, error := some "No data" }, h)
          else
            let bold := bold.getD true
            let bgColor := bgColor.getD "#e8e8e8"
            let colCount := (d.headD []).length
            let d' := (List.range colCount).foldl (fun g c =>
                let g := if bold then setCellPatch g 0 c { bl := some 1 } else g
                if bgColor ≠ "" then setCellPatch g 0 c { bg := some bgColor } else g) d
            ({ success := true,
               message := some ("已设置表头样式: 加粗=" ++ jsBoolStr bold ++ ", 背景色=" ++ bgColor) },
             some { st with grid := some d' })

/-- `SheetController.freezeColumns(count = 1)`. -/
def freezeColumns (count : Option Int) (h : Handle) : ExecResult × Handle :=
  match h with
  | none => ({ success := false, error := some "Sheet not available" }, h)
  | some st =>
      let count := count.getD 1
      ({ success := true, message := some ("已冻结前 " ++ toString count ++ " 列") },
       some { st with frozen := some ("rangeBoth", 0, count - 1) })

/-- `SheetController.freezeRows(count = 1)`. -/
def freezeRows (count : Option Int) (h : Handle) : ExecResult × Handle :=
  match h with
  | none => ({ success := false, error := some "Sheet not available" }, h)
  | some st =>
      let count := count.getD 1
      ({ success := true, message := some ("已冻结前 " ++ toString count ++ " 行") },
       some { st with frozen := some ("rangeRow", count - 1, 0) })

/-- The text width the auto-fit loop computes for the slot at `(r, c)`:
`String(cell?.v || cell?.m || '').length * 10 + 20`. -/
def colTextWidth (d : Grid) (c r : Nat) : Nat :=
  let slot := (d.getD r []).getD c none
  let value : JsVal :=
    match slot with
    | none => .vStr ""
    | some cell =>
        if ¬ jsFalsy cell.v then cell.v
        else if ¬ jsFalsy cell.m then cell.m
        else .vStr ""
  (jsToString value).length * 10 + 20

/-- The per-column width `autoFitColumnWidth` computes: the running
maximum of `min(textWidth, 300)` over the first `min(rows, 100)` rows,
starting from the minimum width 50. -/
def colFitWidth (d : Grid) (c : Nat) : Nat :=
  (List.range (min d.length 100)).foldl (fun mw r => max mw (min (colTextWidth d c r) 300)) 50

/-- `SheetController.autoFitColumnWidth()`. -/
def autoFitColumnWidth (h : Handle) : ExecResult × Handle :=
  match h with
  | none => ({ success := false, error := some "Sheet not available" }, h)
  | some st =>
      match st.grid with
      | none => ({ success := false, error := some "No data" }, h)
      | some d =>
          if d.length = 0 then ({ success := false, error := some "No data" }, h)
          else
            let colCount := (d.headD []).length
            let widths := (List.range colCount).map (fun c => (c, colFitWidth d c))
            ({ success := true, message := some "已自动调整所有列宽" },
             some { st with colWidths := st.colWidths ++ widths })

/-- `SheetController.setConditionalFormat(columnName, operator, value,
color = null, bgColor = null)`. -/
def setConditionalFormat (columnName operator : String) (value : JsVal)
    (color bgColor : Option String) (h : Handle) : ExecResult × Handle :=
  match h with
  | none => ({ success := false, error := some "Sheet not available" }, h)
  | some st =>
      match st.grid with
      | none => ({ success := false, error := some "No data" }, h)
      | some d =>
          if d.length = 0 then ({ success := false, error := some "No data" }, h)
          else
            match findColIndex (d.headD []) columnName with
            | none => ({ success := false, error := some ("找不到列: " ++ columnName) }, h)
            | some colIndex =>
                let patch : StylePatch :=
                  { fc := match color with
                      | some s => if s ≠ "" then some s else none
                      | none => none
                    bg := match bgColor with
                      | some s => if s ≠ "" then some s else none
                      | none => none }
                let out := (List.range' 1 (d.length - 1)).foldl
                  (fun (acc : Nat × Grid) r =>
                    if matchesOp operator (condCellVal ((d.getD r []).getD colIndex none)) value then
                      (acc.1 + 1, setCellPatch acc.2 r colIndex patch)
                    else acc)
                  ((0, d) : Nat × Grid)
                ({ success := true,
                   message := some ("已对 " ++ toString out.1 ++ " 个单元格应用条件格式") },
                 some { st with grid := some out.2 })

/-- The bracket lookup `styleMap[outerStyle]` on the object literal
`{thin: 1, medium: 2, thick: 3}`: an own property yields its number; any
other key continues along the prototype chain and, when it names an
`Object.prototype` property, yields that truthy inherited value; only a
key found nowhere yields `undefined` (`none`). -/
def styleMapLookup (s : String) : Option BorderStyleVal :=
  if s = "thin" then some (.num 1)
  else if s = "medium" then some (.num 2)
  else if s = "thick" then some (.num 3)
  else if s ∈ objectProtoKeys then some (.protoVal s)
  else none

/-- `SheetController.setBorder(type = 'all', outerStyle = 'medium',
innerStyle = 'thin')`.  Note the source never reads `innerStyle` after
defaulting it. -/
def setBorder (type outerStyle innerStyle : Option String) (h : Handle) :
    ExecResult × Handle :=
  match h with
  | none => ({ success := false, error := some "Sheet not available" }, h)
  | some st =>
      match st.grid with
      | none => ({ success := false, error := some "No data" }, h)
      | some d =>
          if d.length = 0 then ({ success := false, error := some "No data" }, h)
          else
            let type := type.getD "all"
            let outerStyle := outerStyle.getD "medium"
            let rowCount := d.length
            let colCount := (d.headD []).length
            let st := { st with
              selection := some (0, (rowCount : Int) - 1, 0, (colCount : Int) - 1) }
            let borderValue : Border :=
              { rangeType := "range"
                borderType :=
                  if type = "outer" then "border-outside"
                  else if type = "inner" then "border-inside"
                  else "border-all"
                style := (styleMapLookup outerStyle).getD (.num 2)
                color := "#000000" }
            ({ success := true, message := some ("已添加" ++ type ++ "边框") },
             some { st with borders := st.borders ++ [borderValue] })

/-- The `hideRow(rows)` widget primitive: mark the listed rows hidden. -/
def hideRowsPrim (hidden : List Nat) (rows : List Nat) : List Nat :=
  hidden ++ rows.filter (fun r => ¬ r ∈ hidden)

/-- `SheetController.hideRowsWhere(columnName, contains)`. -/
def hideRowsWhere (columnName contains : String) (h : Handle) : ExecResult × Handle :=
  match h with
  | none => ({ success := false, error := some "Sheet not available" }, h)
  | some st =>
      match st.grid with
      | none => ({ success := false, error := some "No data" }, h)
      | some d =>
          if d.length = 0 then ({ success := false, error := some "No data" }, h)
          else
            match findColIndex (d.headD []) columnName with
            | none => ({ success := false, error := some ("找不到列: " ++ columnName) }, h)
            | some colIndex =>
                let rowsToHide := (List.range' 1 (d.length - 1)).filter (fun r =>
                  jsIncludes (cellValToString (hideCellVal ((d.getD r []).getD colIndex none))) contains)
                let st :=
                  if rowsToHide.length > 0 then
                    { st with hiddenRows := hideRowsPrim st.hiddenRows rowsToHide }
                  else st
                ({ success := true,
                   message := some ("已隐藏 " ++ toString rowsToHide.length ++ " 行包含\"" ++ contains ++ "\"的数据") },
                 some st)

/-- `SheetController.showAllRows()`.  Note: the handle guard runs before
the try block, so an absent sheet is a reported failure here too; a null
`getSheetData()` makes `data.length` throw inside the try, which the
catch converts to a reported failure. -/
def showAllRows (h : Handle) : ExecResult × Handle :=
  match h with
  | none => ({ success := false, error := some "Sheet not available" }, h)
  | some st =>
      match st.grid with
      | none =>
          ({ success := false,
             error := some "Cannot read properties of null (reading 'length')" }, h)
      | some d =>
          let allRows := List.range d.length
          ({ success := true, message := some "已显示所有行" },
           some { st with hiddenRows := st.hiddenRows.filter (fun r => ¬ r ∈ allRows) })

/-- Insertion step for the `orderByRow` model. -/
def insertSortedBy {α : Type} (le : α → α → Bool) (x : α) : List α → List α
  | [] => [x]
  | y :: ys => if le x y then x :: y :: ys else y :: insertSortedBy le x ys

/-- Sorting for the `orderByRow` model. -/
def sortRowsBy {α : Type} (le : α → α → Bool) : List α → List α
  | [] => []
  | x :: xs => insertSortedBy le x (sortRowsBy le xs)

/-- Row comparison used by the `orderByRow` model: numeric when both
cells coerce to numbers, otherwise lexicographic on the string forms. -/
def rowLE (colIndex : Nat) (asc : Bool) (r₁ r₂ : Row) : Bool :=
  let v₁ := condCellVal (r₁.getD colIndex none)
  let v₂ := condCellVal (r₂.getD colIndex none)
  let le :=
    match cellValNumber v₁, cellValNumber v₂ with
    | some a, some b => a ≤ b
    | _, _ => cellValToString v₁ ≤ cellValToString v₂
  if asc then le else !le

/-- Model of the `orderByRow({col, isAsc})` widget primitive (external
boundary, spec §6): reorder the data rows (the header row stays) by the
cell value in the given column. -/
def orderByRow (d : Grid) (colIndex : Nat) (asc : Bool) : Grid :=
  match d with
  | [] => []
  | hdr :: rows => hdr :: sortRowsBy (rowLE colIndex asc) rows

/-- `SheetController.sortByColumn(columnName, ascending = true)`. -/
def sortByColumn (columnName : String) (ascending : Option Bool) (h : Handle) :
    ExecResult × Handle :=
  match h with
  | none => ({ success := false, error := some "Sheet not available" }, h)
  | some st =>
      match st.grid with
      | none => ({ success := false, error := some "No data" }, h)
      | some d =>
          if d.length = 0 then ({ success := false, error := some "No data" }, h)
          else
            match findColIndex (d.headD []) columnName with
            | none => ({ success := false, error := some ("找不到列: " ++ columnName) }, h)
            | some colIndex =>
                let ascending := ascending.getD true
                let headLen := (d.headD []).length
                let colHigh : Int := (if headLen = 0 then 1 else (headLen : Int)) - 1
                let st := { st with
                  selection := some (1, (d.length : Int) - 1, 0, colHigh)
                  grid := some (orderByRow d colIndex ascending) }
                ({ success := true,
                   message := some ("已按\"" ++ columnName ++ "\"" ++
                     (if ascending then "升序" else "降序") ++ "排序") },
                 some st)

/-- A UI command as drained from `/api/ui/pending`: the action name plus
the parameter fields the nine capabilities read.  Fields a given command
does not carry are `none` / defaults (the JS code reads them as
`undefined` and the capabilities' default parameters apply). -/
structure Command where
  action : String
  bold : Option Bool := none
  bgColor : Option String := none
  count : Option Int := none
  column : String := ""
  operator : String := ""
  value : JsVal := .undef
  color : Option String := none
  type : Option String := none
  outerStyle : Option String := none
  innerStyle : Option String := none
  contains : String := ""
  ascending : Option Bool := none
deriving Repr, DecidableEq

/-- The nine capability names `executeUICommand` recognizes. -/
def knownActions : List String :=
  ["setHeaderStyle", "freezeColumns", "freezeRows", "autoFitColumnWidth",
   "setConditionalFormat", "setBorder", "hideRowsWhere", "showAllRows",
   "sortByColumn"]

/-- `executeUICommand(command)`: look the action up in the capability
switch; an unknown action is rejected with `未知命令: <action>` without
touching the sheet. -/
def executeUICommand (command : Command) (h : Handle) : ExecResult × Handle :=
  match command.action with
  | "setHeaderStyle" => setHeaderStyle command.bold command.bgColor h
  | "freezeColumns" => freezeColumns command.count h
  | "freezeRows" => freezeRows command.count h
  | "autoFitColumnWidth" => autoFitColumnWidth h
  | "setConditionalFormat" =>
      setConditionalFormat command.column command.operator command.value
        command.color command.bgColor h
  | "setBorder" => setBorder command.type command.outerStyle command.innerStyle h
  | "hideRowsWhere" => hideRowsWhere command.column command.contains h
  | "showAllRows" => showAllRows h
  | "sortByColumn" => sortByColumn command.column command.ascending h
  | other => ({ success := false, error := some ("未知命令: " ++ other) }, h)

/-- The `for (const cmd of data.commands)` loop of one poll tick: execute
each drained command in order, threading the sheet handle, collecting
every result. -/
def runBatch : List Command → Handle → Handle × List ExecResult
  | [], h => (h, [])
  | cmd :: rest, h =>
      let step := executeUICommand cmd h
      let next := runBatch rest step.2
      (next.1, step.1 :: next.2)

/-- Outcome of one network round trip: a decoded response, or a transport
failure carrying the thrown error's message. -/
inductive NetOutcome (α : Type) where
  | ok (val : α)
  | netFail (errMsg : String)

/-- The decoded body of `GET /api/ui/pending`. -/
structure PendingResp where
  success : Bool
  commands : Option (List Command)

/-- One tick of `pollUICommands`: a transport failure is swallowed; on
`success` with a non-empty command list, run the batch in order. -/
def pollUICommandsTick (outcome : NetOutcome PendingResp) (h : Handle) :
    Handle × List ExecResult :=
  match outcome with
  | .netFail _ => (h, [])
  | .ok r =>
      if r.success then
        match r.commands with
        | some cs => if cs.length > 0 then runBatch cs h else (h, [])
        | none => (h, [])
      else (h, [])

/-- A JSON value, for the `result` payload of a query response.  `null`
also stands for an absent (`undefined`) value: `handleSendMessage` treats
the two identically (`result === null || result === undefined`). -/
inductive JsonVal where
  | null
  | str (s : String)
  | num (n : Int)
  | bool (b : Bool)
  | arr (xs : List JsonVal)
  | obj (fields : List (String × JsonVal))

/-- JavaScript truthiness of a JSON value (arrays and objects are always
truthy). -/
def jsonTruthy : JsonVal → Bool
  | .null => false
  | .str s => s ≠ ""
  | .num n => n ≠ 0
  | .bool b => b
  | .arr _ => true
  | .obj _ => true

/-- Property access `v[k]`; absent keys (and access on non-objects) give
`null` (standing for `undefined`, see `JsonVal`). -/
def getField (v : JsonVal) (k : String) : JsonVal :=
  match v with
  | .obj fields =>
      match fields.find? (fun p => p.1 == k) with
      | some p => p.2
      | none => .null
  | _ => .null

mutual

/-- Template-literal stringification of a JSON value, as in
`` `${k}: ${v}` ``: strings verbatim, arrays joined with commas (null
elements become empty), objects render as `"[object Object]"`. -/
def jsonToJsString : JsonVal → String
  | .null => "null"
  | .str s => s
  | .num n => toString n
  | .bool b => jsBoolStr b
  | .arr xs => String.intercalate "," (jsonArrParts xs)
  | .obj _ => "[object Object]"

/-- Array elements as rendered by `Array.prototype.toString`. -/
def jsonArrParts : List JsonVal → List String
  | [] => []
  | x :: rest =>
      (match x with
       | .null => ""
       | y => jsonToJsString y) :: jsonArrParts rest

end

mutual

/-- `JSON.stringify` of a JSON value (the string shapes that occur here
contain no characters that need escaping). -/
def jsonStringify : JsonVal → String
  | .null => "null"
  | .str s => "\"" ++ s ++ "\""
  | .num n => toString n
  | .bool b => jsBoolStr b
  | .arr xs => "[" ++ String.intercalate "," (jsonStringifyList xs) ++ "]"
  | .obj fields => "\x7b" ++ String.intercalate "," (jsonStringifyFields fields) ++ "\x7d"

/-- `JSON.stringify` over an array's elements. -/
def jsonStringifyList : List JsonVal → List String
  | [] => []
  | x :: rest => jsonStringify x :: jsonStringifyList rest

/-- `JSON.stringify` over an object's fields. -/
def jsonStringifyFields : List (String × JsonVal) → List String
  | [] => []
  | f :: rest => ("\"" ++ f.1 ++ "\":" ++ jsonStringify f.2) :: jsonStringifyFields rest

end

/-- `Object.keys`: field names of an object, index strings of a string,
nothing for other shapes. -/
def keysOf : JsonVal → List String
  | .obj fields => fields.map (fun p => p.1)
  | .str s => (List.range s.length).map (fun i => toString i)
  | _ => []

/-- `Object.entries`, matching `keysOf`. -/
def entriesOf : JsonVal → List (String × JsonVal)
  | .obj fields => fields
  | .str s => s.toList.enum.map (fun p => (toString p.1, JsonVal.str (String.singleton p.2)))
  | _ => []

/-- The string a `${k}: ${v}` line renders for `v` in the generic-object
branch: objects and arrays via `JSON.stringify`, primitives via the
template literal. -/
def jsonValStrOrStringify (v : JsonVal) : String :=
  match v with
  | .obj _ => jsonStringify v
  | .arr _ => jsonStringify v
  | _ => jsonToJsString v

/-- A chat transcript entry. -/
structure Message where
  role : String
  content : String
  isLoading : Bool := false
  responseType : Option String := none

/-- The open confirmation request: the temp table staged server-side and
the proposed answer, exactly the object `setConfirmData` stores. -/
structure ConfirmData where
  temp_table : String
  answer : String
deriving Repr, DecidableEq

/-- One cell entry of the sheet view built by `renderResult` /
`loadTableData`. -/
structure CellEntry where
  r : Nat
  c : Nat
  v : JsonVal
  m : String

/-- The sheet view object passed to `setSheetData`. -/
structure SheetView where
  name : String
  celldata : List CellEntry
  row : Nat
  column : Nat

/-- The client's transient React state, restricted to the fields the
dispatcher and the confirmation state machine read or write. -/
structure AppState where
  activeTab : Option String := none
  messages : List Message := []
  showConfirmModal : Bool := false
  confirmData : Option ConfirmData := none
  saveAsName : String := ""
  sheetData : List SheetView := []

/-- A side effect requested during a dispatch: the asynchronous helpers
(`loadTables`, `loadTableData`) and the backend requests and alerts the
handlers issue. -/
inductive Effect where
  | loadTables
  | loadTableData (tableName : String)
  | postOverwrite (sourceTable targetName : String)
  | postRename (sourceTable targetName : String)
  | deleteTable (tableName : String)
  | alert (msg : String)
deriving Repr, DecidableEq

/-- JavaScript `a || b` on an optional string (`undefined` and `""` are
falsy). -/
def optStrOr (o : Option String) (d : String) : String :=
  match o with
  | some s => if s = "" then d else s
  | none => d

/-- JavaScript `a || b` on two strings. -/
def strOrD (s d : String) : String := if s = "" then d else s

/-- JavaScript truthiness of an optional string. -/
def optStrTruthy (o : Option String) : Bool :=
  match o with
  | some s => s ≠ ""
  | none => false

/-- `String.prototype.replace` with a string pattern: replace the FIRST
occurrence only. -/
def replaceFirst (s pat repl : String) : String :=
  match s.splitOn pat with
  | [] => s
  | [_] => s
  | p₁ :: p₂ :: rest => p₁ ++ repl ++ String.intercalate pat (p₂ :: rest)

/-- The decoded payload `data.data` of `POST /api/ai/query`. -/
structure QueryData where
  response_type : Option String := none
  answer : Option String := none
  explanation : Option String := none
  result : JsonVal := .null
  temp_table : Option String := none

/-- The decoded body of `POST /api/ai/query`. -/
structure QueryResponse where
  success : Bool
  data : QueryData := {}
  message : Option String := none

/-- The decoded body of a confirmation-resolution call
(`/api/table/overwrite`, `/api/table/rename`, `DELETE /api/table/{name}`). -/
structure ApiResp where
  success : Bool
  message : Option String := none

/-- `renderResult(result)`: project a result array (or result-shaped
object) into a replacement sheet view; if no columns can be derived the
state is left untouched. -/
def renderResult (result : JsonVal) (st : AppState) : AppState :=
  let pair : List JsonVal × List String :=
    match result with
    | .arr xs =>
        (xs, if xs.length > 0 then keysOf (xs.headD .null) else [])
    | .obj fields =>
        match getField (.obj fields) "data" with
        | .arr ys =>
            (ys,
             match getField (.obj fields) "columns" with
             | .arr cs => cs.map jsonToJsString
             | c => if jsonTruthy c then []
                    else if ys.length > 0 then keysOf (ys.headD .null) else [])
        | _ => ([.obj fields], keysOf (.obj fields))
    | _ => ([], [])
  let dataRows := pair.1
  let columns := pair.2
  if columns.length = 0 then st
  else
    let headerCells := columns.enum.map (fun p =>
      ({ r := 0, c := p.1, v := JsonVal.str p.2, m := p.2 } : CellEntry))
    let rowCells := dataRows.enum.flatMap (fun rp =>
      columns.enum.filterMap (fun cp =>
        let val := getField rp.2 cp.2
        match val with
        | .null => none
        | v => some ({ r := rp.1 + 1, c := cp.1, v := v, m := jsonToJsString v } : CellEntry)))
    let view : SheetView :=
      { name := "AI 结果"
        celldata := headerCells ++ rowCells
        row := max 50 (dataRows.length + 10)
        column := max 26 (columns.length + 5) }
    { st with sheetData := [view] }

/-- The legacy `answer`/default branch of the response dispatcher:
returns `(icon, resultText, new state, effects)`. -/
def answerBranch (answer : String) (result : JsonVal) (base : AppState) :
    String × String × AppState × List Effect :=
  if answer ≠ "" then ("💡", answer, base, [])
  else
    match result with
    | .null => ("💡", "查询完成", base, [])
    | .arr xs =>
        if xs.length = 1 ∧ (keysOf (xs.headD .null)).length ≤ 3 then
          ("💡",
           String.intercalate "\n" ((entriesOf (xs.headD .null)).map (fun p =>
             p.1 ++ ": " ++ jsonToJsString p.2)),
           base, [])
        else
          ("💡", "查询成功，返回 " ++ toString xs.length ++ " 条结果",
           renderResult (.arr xs) base, [])
    | .obj fields =>
        if (match getField (.obj fields) "status" with
            | .str s => s == "success"
            | _ => false) &&
            jsonTruthy (getField (.obj fields) "message") then
          ("✅", jsonToJsString (getField (.obj fields) "message"), base,
           if optStrTruthy base.activeTab then [Effect.loadTableData (base.activeTab.getD "")]
           else [])
        else
          ("💡",
           String.intercalate "\n" (fields.map (fun p =>
             p.1 ++ ": " ++ jsonValStrOrStringify p.2)),
           base, [])
    | v => ("💡", jsonToJsString v, base, [])

/-- The response-handling part of `handleSendMessage`, from the point the
query's network outcome is known: drop the loading placeholder, then
classify the response by `response_type` and perform that kind's message
append, state change and side effects. -/
def dispatchQueryOutcome (st : AppState) (outcome : NetOutcome QueryResponse) :
    AppState × List Effect :=
  let base : AppState := { st with messages := st.messages.filter (fun m => ¬ m.isLoading) }
  match outcome with
  | .netFail errMsg =>
      ({ base with messages := base.messages ++
          [{ role := "assistant", content := "✗ 请求失败: " ++ errMsg }] }, [])
  | .ok resp =>
      if resp.success then
        let responseType := optStrOr resp.data.response_type "answer"
        let answer := optStrOr resp.data.answer (optStrOr resp.data.explanation "")
        let branch : String × String × AppState × List Effect :=
          if responseType = "clarify" then ("❓", answer, base, [])
          else if responseType = "error" then ("❌", strOrD answer "操作失败", base, [])
          else if responseType = "data" then
            (if optStrTruthy resp.data.temp_table then
               let tt := resp.data.temp_table.getD ""
               ("✅", answer ++ " (等待确认...)",
                { base with
                  confirmData := some { temp_table := tt, answer := answer }
                  saveAsName := replaceFirst tt "t_ai_temp_" "新表格_"
                  showConfirmModal := true },
                [])
             else
               ("✅", strOrD answer "数据操作完成", base,
                [Effect.loadTables] ++
                  (if optStrTruthy base.activeTab
                   then [Effect.loadTableData (base.activeTab.getD "")] else [])))
          else if responseType = "ui" then ("🎨", strOrD answer "样式已更新", base, [])
          else answerBranch answer resp.data.result base
        let icon := branch.1
        let resultText := branch.2.1
        let st₁ := branch.2.2.1
        ({ st₁ with messages := st₁.messages ++
            [{ role := "assistant", content := icon ++ " " ++ resultText,
               responseType := some responseType }] },
         branch.2.2.2)
      else
        ({ base with messages := base.messages ++
            [{ role := "assistant", content := "✗ " ++ resp.message.getD "undefined" }] }, [])

/-- `handleConfirmOverwrite`: resolve the pending confirmation by
overwriting the active table with the temp table's contents.  Guarded on
a pending request and an active tab; on backend failure or transport
failure only an alert is raised and the state is untouched. -/
def handleConfirmOverwrite (st : AppState) (outcome : NetOutcome ApiResp) :
    AppState × List Effect :=
  match st.confirmData with
  | none => (st, [])
  | some cd =>
      if ¬ optStrTruthy st.activeTab then (st, [])
      else
        let tab := st.activeTab.getD ""
        let req := Effect.postOverwrite cd.temp_table tab
        match outcome with
        | .netFail _ => (st, [req, .alert "请求失败"])
        | .ok resp =>
            if resp.success then
              ({ st with
                 messages := st.messages ++
                   [{ role := "assistant", content := "✅ 已覆盖表格 \"" ++ tab ++ "\"" }]
                 showConfirmModal := false
                 confirmData := none },
               [req, .loadTables, .loadTableData tab])
            else
              (st, [req, .alert ("覆盖失败: " ++ resp.message.getD "undefined")])

/-- `handleConfirmSaveAs`: resolve the pending confirmation by renaming
the temp table to the user-supplied name and switching to it. -/
def handleConfirmSaveAs (st : AppState) (outcome : NetOutcome ApiResp) :
    AppState × List Effect :=
  match st.confirmData with
  | none => (st, [])
  | some cd =>
      if st.saveAsName = "" then (st, [])
      else
        let req := Effect.postRename cd.temp_table st.saveAsName
        match outcome with
        | .netFail _ => (st, [req, .alert "请求失败"])
        | .ok resp =>
            if resp.success then
              ({ st with
                 messages := st.messages ++
                   [{ role := "assistant",
                      content := "✅ 已保存为新表 \"" ++ st.saveAsName ++ "\"" }]
                 showConfirmModal := false
                 confirmData := none
                 activeTab := some st.saveAsName },
               [req, .loadTables, .loadTableData st.saveAsName])
            else
              (st, [req, .alert ("保存失败: " ++ resp.message.getD "undefined")])

/-- `handleConfirmCancel` (Discard): when a confirmation is pending, send
a best-effort deletion of the temp table (its outcome — success, backend
failure or transport failure — is ignored: the response is never read and
the catch swallows transport errors) and unconditionally clear the
confirmation state; when nothing is pending, do nothing. -/
def handleConfirmCancel (st : AppState) (outcome : NetOutcome ApiResp) :
    AppState × List Effect :=
  match st.confirmData with
  | none => (st, [])
  | some cd =>
      ({ st with
         messages := st.messages ++ [{ role := "assistant", content := "🚫 已放弃操作" }]
         showConfirmModal := false
         confirmData := none },
       [Effect.deleteTable cd.temp_table])

/-- The clamp function named by the spec: `clamp(x, lo, hi)`. -/
def specClamp (x lo hi : Nat) : Nat := min (max x lo) hi

/-- The spec-side quantity for `autoFitColumnWidth`: the maximum observed
text width of column `c` over the first `min(rows, 100)` rows. -/
def maxColTextWidth (d : Grid) (c : Nat) : Nat :=
  (List.range (min d.length 100)).foldl (fun a r => max a (colTextWidth d c r)) 0

/-- The border-style mapping `styleMap[outerStyle] || 2` actually
computes: `{thin: 1, medium: 2, thick: 3}` on the object's own keys; a
key inherited from `Object.prototype` yields its truthy inherited value
(so `|| 2` never fires there); only keys found nowhere fall back to
weight 2. -/
def specStyleVal (s : String) : BorderStyleVal :=
  if s = "thin" then .num 1
  else if s = "medium" then .num 2
  else if s = "thick" then .num 3
  else if s ∈ objectProtoKeys then .protoVal s
  else .num 2

/-- Sample sheet for the conditional-format example: header `age`, data
rows 25, 35, 40 (as `loadTableData` builds cells: `v` the value, `m` its
string form). -/
def ageSheet : SheetState :=
  { grid := some [
      [some { v := .vStr "age", m := .vStr "age" }],
      [some { v := .vNum 25, m := .vStr "25" }],
      [some { v := .vNum 35, m := .vStr "35" }],
      [some { v := .vNum 40, m := .vStr "40" }]] }

/-- Sample grid with a single column whose only header cell is `name`. -/
def nameGrid : Grid := [[some { v := .vStr "name", m := .vStr "name" }]]

/-- Sample sheet built on `nameGrid`. -/
def nameSheet : SheetState := { grid := some nameGrid }

/-- Sample grid whose data cell is 36 characters wide (text width
36·10+20 = 380, clamping to 300). -/
def wideGrid : Grid :=
  [[some { v := .vStr "h", m := .vStr "h" }],
   [some { v := .vStr "abcdefghijklmnopqrstuvwxyzabcdefghij" }]]

/-- Sample sheet built on `wideGrid`. -/
def wideSheet : SheetState := { grid := some wideGrid }

/-- Sample two-row grid. -/
def hiddenGrid : Grid := [[none], [none]]

/-- Sample sheet with its second row hidden. -/
def hiddenSheet : SheetState := { grid := some hiddenGrid, hiddenRows := [1] }

/-- Sample grid for the border witness. -/
def borderGrid : Grid := [[some { v := .vStr "h" }], [some { v := .vNum 1 }]]

/-- Sample sheet built on `borderGrid`. -/
def borderSheet : SheetState := { grid := some borderGrid }

/-- A command whose action no capability carries. -/
def badCmd : Command := { action := "fooCmd" }

/-- A well-formed `showAllRows` command. -/
def showCmd : Command := { action := "showAllRows" }

/-- Sample sheet for the poller witness. -/
def pollSheet : SheetState := { grid := some [[none]], hiddenRows := [0] }

/-- Sample client state with an active tab. -/
def c1State : AppState := { activeTab := some "sales" }

/-- Sample pending-confirmation client state. -/
def c2State : AppState :=
  { activeTab := some "sales", showConfirmModal := true,
    confirmData := some { temp_table := "t_ai_temp_1", answer := "a" } }

/-- A successful query response of kind `data` with the given answer,
explanation, result and temp-table fields. -/
def dataResp (ans expl : Option String) (res : JsonVal) (tt : Option String)
    (msg : Option String) : QueryResponse where
  success := true
  message := msg
  data :=
    { response_type := some "data"
      answer := ans
      explanation := expl
      result := res
      temp_table := tt }

/-- A column lookup over a header row none of whose slots matches the
requested name comes back empty. -/
theorem findColIndex_eq_none (row : Row) (name : String)
    (h : ∀ slot ∈ row, headerText slot ≠ name) : findColIndex row name = none := by
  induction row with
  | nil => rfl
  | cons slot rest ih =>
      simp only [findColIndex]
      rw [if_neg (h slot (List.mem_cons_self slot rest))]
      rw [ih (fun s hs => h s (List.mem_cons_of_mem _ hs))]
      rfl

/-- Hoisting the left operand out of a running maximum. -/
theorem foldl_max_init {α : Type} (l : List α) (f : α → Nat) (a b : Nat) :
    l.foldl (fun x t => max x (f t)) (max a b) = max a (l.foldl (fun x t => max x (f t)) b) := by
  induction l generalizing b with
  | nil => rfl
  | cons t ts ih =>
      simp only [List.foldl_cons]
      rw [Nat.max_assoc]
      exact ih (max b (f t))

/-- The auto-fit accumulator law: folding `max · (min · 300)` from a
clamped seed equals clamping the plain running maximum. -/
theorem foldl_maxmin_eq_min_foldl_max {α : Type} (l : List α) (f : α → Nat) (a : Nat) :
    l.foldl (fun x t => max x (min (f t) 300)) (min a 300) =
      min (l.foldl (fun x t => max x (f t)) a) 300 := by
  induction l generalizing a with
  | nil => rfl
  | cons t ts ih =>
      simp only [List.foldl_cons]
      have h : max (min a 300) (min (f t) 300) = min (max a (f t)) 300 := by omega
      rw [h]
      exact ih (max a (f t))

/-- The width the auto-fit loop computes for a column is the clamp of the
maximum observed text width into `[50, 300]`. -/
theorem colFitWidth_eq_clamp (d : Grid) (c : Nat) :
    colFitWidth d c = specClamp (maxColTextWidth d c) 50 300 := by
  have key := foldl_maxmin_eq_min_foldl_max (List.range (min d.length 100)) (colTextWidth d c) 50
  have h1 : min (50 : Nat) 300 = 50 := rfl
  rw [h1] at key
  have key2 := foldl_max_init (List.range (min d.length 100)) (colTextWidth d c) 50 0
  have h2 : max (50 : Nat) 0 = 50 := rfl
  rw [h2] at key2
  unfold colFitWidth maxColTextWidth specClamp
  rw [key, key2, Nat.max_comm]

/-- The closed-form style map agrees with `styleMap[outerStyle] || 2`. -/
theorem styleMap_getD_eq_spec (s : String) :
    (styleMapLookup s).getD (.num 2) = specStyleVal s := by
  unfold styleMapLookup specStyleVal
  split_ifs <;> rfl

/-- One poll batch produces one result per command. -/
theorem runBatch_length (cs : List Command) (h : Handle) :
    (runBatch cs h).2.length = cs.length := by
  induction cs generalizing h with
  | nil => rfl
  | cons c rest ih => simp [runBatch, ih]

/-- The `i`-th result of a poll batch is the execution of the `i`-th
command on the handle state left by the first `i` commands — regardless
of whether any earlier command failed. -/
theorem runBatch_getD (cs : List Command) (h : Handle) (i : Nat)
    (hi : i < cs.length) (dr : ExecResult) (dc : Command) :
    (runBatch cs h).2.getD i dr =
      (executeUICommand (cs.getD i dc) (runBatch (cs.take i) h).1).1 := by
  induction cs generalizing h i with
  | nil => exact absurd hi (by simp)
  | cons c rest ih =>
      cases i with
      | zero => simp [runBatch]
      | succ n =>
          simp only [runBatch, List.getD_cons_succ, List.take_succ_cons]
          exact ih (executeUICommand c h).2 n (by simpa using hi) 

/-- C7: `setConditionalFormat("age", ">", 30, null, "#ffcccc")` on a sheet
whose `age` column holds 25, 35, 40 succeeds, reports a match count of 2,
and sets the background color on exactly the 2nd and 3rd data rows
(header excluded), leaving everything else unchanged. -/
theorem setConditionalFormat_age_example :
    setConditionalFormat "age" ">" (.vNum 30) none (some "#ffcccc") (some ageSheet) =
      ({ success := true, message := some "已对 2 个单元格应用条件格式" },
       some { ageSheet with grid := some [
         [some { v := .vStr "age", m := .vStr "age" }],
         [some { v := .vNum 25, m := .vStr "25" }],
         [some { v := .vNum 35, m := .vStr "35", bg := some "#ffcccc" }],
         [some { v := .vNum 40, m := .vStr "40", bg := some "#ffcccc" }]] }) := by
  decide

/-- C4: every column-addressed capability (`setConditionalFormat`,
`hideRowsWhere`, `sortByColumn`), on a sheet with data whose header row
has no cell whose value-or-display text equals the requested column name,
returns `success: false` with an error naming that column and leaves the
sheet state unchanged. -/
theorem column_not_found_error_preserves_state (st : SheetState) (d : Grid)
    (name : String) (hg : st.grid = some d) (hne : d ≠ [])
    (hmiss : ∀ slot ∈ d.headD [], headerText slot ≠ name) :
    (∀ op v color bg, setConditionalFormat name op v color bg (some st) =
       ({ success := false, error := some ("找不到列: " ++ name) }, some st)) ∧
    (∀ sub, hideRowsWhere name sub (some st) =
       ({ success := false, error := some ("找不到列: " ++ name) }, some st)) ∧
    (∀ asc, sortByColumn name asc (some st) =
       ({ success := false, error := some ("找不到列: " ++ name) }, some st)) := by
  have hfind := findColIndex_eq_none (d.headD []) name hmiss
  rw [List.headD_eq_head?] at hfind
  have hlen : ¬ d.length = 0 := by simpa [List.length_eq_zero] using hne
  refine ⟨fun op v color bg => ?_, fun sub => ?_, fun asc => ?_⟩ <;>
    simp [setConditionalFormat, hideRowsWhere, sortByColumn, hg, hlen, hfind]

/-- C4 witness: on the one-column sheet whose only header is `name`,
looking up column `age` fails as the claim states. -/
theorem column_not_found_error_preserves_state_witness :
    hideRowsWhere "age" "x" (some nameSheet) =
      ({ success := false, error := some ("找不到列: " ++ "age") }, some nameSheet) :=
  (column_not_found_error_preserves_state nameSheet nameGrid "age" rfl
    (by simp [nameGrid]) (by decide)).2.1 "x"

/-- C5 counterexample: for the unknown action `fooCmd` the executor's
error string is the literal `未知命令: fooCmd`, not the claimed
`unknown command: fooCmd`. -/
theorem unknown_command_error_text_counterexample :
    (executeUICommand { action := "fooCmd" } none).1.error ≠
      some ("unknown command: " ++ "fooCmd") ∧
    executeUICommand { action := "fooCmd" } none =
      ({ success := false, error := some "未知命令: fooCmd" }, none) := by
  exact ⟨by decide, by decide⟩

/-- C5 amended: for every command whose action is none of the nine known
capability names, the executor returns `success: false` with the error
string `未知命令: <action>` (the source's localized form of "unknown
command", naming the unrecognized action), leaves the sheet handle
untouched, and does not throw. -/
theorem unknown_command_rejected (cmd : Command) (h : Handle)
    (hu : ¬ cmd.action ∈ knownActions) :
    executeUICommand cmd h =
      ({ success := false, error := some ("未知命令: " ++ cmd.action) }, h) := by
  unfold executeUICommand
  split <;> simp_all [knownActions]

/-- C5 witness: the amended statement at the concrete action `barCmd`. -/
theorem unknown_command_rejected_witness :
    executeUICommand { action := "barCmd" } none =
      ({ success := false, error := some ("未知命令: " ++ "barCmd") }, none) :=
  unknown_command_rejected { action := "barCmd" } none (by decide)

/-- C9 counterexample: with the sheet handle absent, `showAllRows` does
not return a success result — it fails with `Sheet not available`. -/
theorem showAllRows_no_handle_counterexample :
    showAllRows none = ({ success := false, error := some "Sheet not available" }, none) ∧
    (showAllRows none).1.success = false := ⟨rfl, rfl⟩

/-- C9 amended: whenever the sheet handle is present and `getSheetData()`
returns an array, `showAllRows` unhides every row of the data and returns
a success result; when the handle is absent it returns `success: false`
with `Sheet not available` (see the counterexample). -/
theorem showAllRows_amended (st : SheetState) (d : Grid) (hg : st.grid = some d) :
    showAllRows (some st) =
      ({ success := true, message := some "已显示所有行" },
       some { st with hiddenRows := st.hiddenRows.filter (fun r => ¬ r ∈ List.range d.length) }) ∧
    (∀ r, r < d.length →
       ¬ r ∈ st.hiddenRows.filter (fun r => ¬ r ∈ List.range d.length)) := by
  constructor
  · simp [showAllRows, hg]
  · intro r hr hmem
    simp only [List.mem_filter, decide_eq_true_eq, List.mem_range] at hmem
    exact hmem.2 hr

/-- C9 witness: the amended statement on a sheet with a hidden row. -/
theorem showAllRows_amended_witness :
    showAllRows (some hiddenSheet) =
      ({ success := true, message := some "已显示所有行" },
       some { hiddenSheet with
         hiddenRows := hiddenSheet.hiddenRows.filter (fun r => ¬ r ∈ List.range hiddenGrid.length) }) :=
  (showAllRows_amended hiddenSheet hiddenGrid rfl).1

/-- C10 counterexample: the unrecognized outerStyle keyword `toString`
does not fall back to weight 2 — the bracket lookup `styleMap['toString']`
hits the truthy function inherited from `Object.prototype`, `|| 2` never
fires, and that inherited value itself is applied as the border style. -/
theorem setBorder_proto_outerStyle_counterexample :
    setBorder (some "all") (some "toString") (some "thin") (some borderSheet) =
      ({ success := true, message := some "已添加all边框" },
       some { borderSheet with
         selection := some (0, 1, 0, 0)
         borders := [{ rangeType := "range", borderType := "border-all",
                       style := .protoVal "toString", color := "#000000" }] }) ∧
    BorderStyleVal.protoVal "toString" ≠ .num 2 := by
  decide

/-- C10 amended: `setBorder`'s outcome is independent of `innerStyle`
(runs differing only in `innerStyle` are identical, even for type
`inner`); the applied border style is `specStyleVal` of the (defaulted)
`outerStyle` — thin 1, medium 2, thick 3; an unrecognized keyword falls
back to weight 2 unless it names an inherited `Object.prototype`
property, in which case the truthy inherited value is applied instead. -/
theorem setBorder_innerStyle_independent :
    (∀ (type outerStyle is₁ is₂ : Option String) (h : Handle),
       setBorder type outerStyle is₁ h = setBorder type outerStyle is₂ h) ∧
    (∀ (st : SheetState) (d : Grid) (type outerStyle is : Option String),
       st.grid = some d → d ≠ [] →
       setBorder type outerStyle is (some st) =
         ({ success := true, message := some ("已添加" ++ (type.getD "all") ++ "边框") },
          some { st with
            selection := some (0, (d.length : Int) - 1, 0, ((d.headD []).length : Int) - 1)
            borders := st.borders ++
              [{ rangeType := "range"
                 borderType :=
                   if type.getD "all" = "outer" then "border-outside"
                   else if type.getD "all" = "inner" then "border-inside"
                   else "border-all"
                 style := specStyleVal (outerStyle.getD "medium")
                 color := "#000000" }] })) ∧
    specStyleVal "thin" = .num 1 ∧ specStyleVal "medium" = .num 2 ∧
    specStyleVal "thick" = .num 3 ∧
    (∀ s : String, s ≠ "thin" → s ≠ "medium" → s ≠ "thick" →
       ¬ s ∈ objectProtoKeys → specStyleVal s = .num 2) ∧
    (∀ s ∈ objectProtoKeys, specStyleVal s = .protoVal s) := by
  refine ⟨fun t os i₁ i₂ h => rfl, fun st d t os is hg hne => ?_, rfl, rfl, rfl,
    fun s h₁ h₂ h₃ h₄ => by simp [specStyleVal, h₁, h₂, h₃, h₄], by decide⟩
  have hlen : ¬ d.length = 0 := by simpa [List.length_eq_zero] using hne
  simp [setBorder, hg, hlen, styleMap_getD_eq_spec, List.headD_eq_head?]

/-- C10 witness: identical outcomes for differing inner styles at type
`inner`, the weight-2 fallback at the keyword `dotted` (found nowhere on
the prototype chain), and the inherited value at the `Object.prototype`
key `valueOf`. -/
theorem setBorder_innerStyle_independent_witness :
    setBorder (some "inner") (some "dotted") (some "thin") (some borderSheet) =
      setBorder (some "inner") (some "dotted") (some "medium") (some borderSheet) ∧
    specStyleVal "dotted" = .num 2 ∧
    specStyleVal "valueOf" = .protoVal "valueOf" :=
  ⟨setBorder_innerStyle_independent.1 (some "inner") (some "dotted")
      (some "thin") (some "medium") (some borderSheet),
   setBorder_innerStyle_independent.2.2.2.2.2.1 "dotted"
     (by decide) (by decide) (by decide) (by decide),
   setBorder_innerStyle_independent.2.2.2.2.2.2 "valueOf" (by decide)⟩

/-- C8: on a non-empty sheet, `autoFitColumnWidth` succeeds and records,
for every column, the width `clamp(max observed text width over the first
100 rows, 50, 300)`. -/
theorem autoFit_width_clamp (st : SheetState) (d : Grid)
    (hg : st.grid = some d) (hne : d ≠ []) :
    (autoFitColumnWidth (some st)).1 =
      { success := true, message := some "已自动调整所有列宽" } ∧
    (autoFitColumnWidth (some st)).2 = some { st with colWidths := st.colWidths ++ (List.range (d.headD []).length).map (fun c => (c, specClamp (maxColTextWidth d c) 50 300)) } := by
  have hlen : ¬ d.length = 0 := by simpa [List.length_eq_zero] using hne
  have hmap : (List.range (d.headD []).length).map (fun c => (c, colFitWidth d c)) =
      (List.range (d.headD []).length).map
        (fun c => (c, specClamp (maxColTextWidth d c) 50 300)) :=
    List.map_congr_left (fun c _ => by rw [colFitWidth_eq_clamp])
  rw [List.headD_eq_head?] at hmap
  constructor <;> simp [autoFitColumnWidth, hg, hlen, hmap, List.headD_eq_head?]

/-- C8 witness: the clamped widths on the sample sheet with an over-wide
cell. -/
theorem autoFit_width_clamp_witness :
    (autoFitColumnWidth (some wideSheet)).1 =
      { success := true, message := some "已自动调整所有列宽" } :=
  (autoFit_width_clamp wideSheet wideGrid rfl (by simp [wideGrid])).1

/-- C6: a poll tick that fetched the batch `cs` produces exactly one
result per command, and the `i`-th result is the execution of the `i`-th
fetched command against the handle state left by the first `i` commands —
in fetched order, with no reordering, coalescing or deduplication, and
with every command executing even when an earlier one failed. -/
theorem poll_batch_sequential_in_order (cs : List Command) (h : Handle) :
    (pollUICommandsTick (.ok { success := true, commands := some cs }) h).2.length = cs.length ∧
    (∀ i, i < cs.length → ∀ (dr : ExecResult) (dc : Command),
       (pollUICommandsTick (.ok { success := true, commands := some cs }) h).2.getD i dr =
         (executeUICommand (cs.getD i dc) (runBatch (cs.take i) h).1).1) := by
  cases cs with
  | nil => exact ⟨rfl, fun i hi => absurd hi (by simp)⟩
  | cons c rest =>
      have hp : pollUICommandsTick (.ok { success := true, commands := some (c :: rest) }) h =
          runBatch (c :: rest) h := by
        simp [pollUICommandsTick]
      exact ⟨by rw [hp]; exact runBatch_length (c :: rest) h,
        fun i hi dr dc => by rw [hp]; exact runBatch_getD (c :: rest) h i hi dr dc⟩

/-- C6 witness: in a two-command batch whose first command is unknown
(and fails validation), the second command still executes, in order. -/
theorem poll_batch_sequential_in_order_witness :
    (1 < ([badCmd, showCmd] : List Command).length) ∧
    (pollUICommandsTick (.ok { success := true, commands := some [badCmd, showCmd] })
        (some pollSheet)).2.getD 1 { success := false } =
      (executeUICommand ([badCmd, showCmd].getD 1 badCmd)
        (runBatch ([badCmd, showCmd].take 1) (some pollSheet)).1).1 :=
  ⟨by decide,
   (poll_batch_sequential_in_order [badCmd, showCmd] (some pollSheet)).2 1 (by decide)
     { success := false } badCmd⟩

/-- C1: a successful `data`-kind query response carrying a (non-empty)
temp table name opens exactly one ConfirmationRequest holding that name
and the response's answer, shows the modal, appends exactly one chat
message displaying the answer suffixed with the pending-confirmation
marker, and emits no effects — in particular no table-list refresh and no
active-view reload. -/
theorem dispatch_data_tempTable_opens_confirmation (st : AppState)
    (ans expl : Option String) (res : JsonVal) (tt : String) (msg : Option String)
    (hne : tt ≠ "") :
    (dispatchQueryOutcome st (.ok (dataResp ans expl res (some tt) msg))).1.confirmData =
      some { temp_table := tt, answer := optStrOr ans (optStrOr expl "") } ∧
    (dispatchQueryOutcome st (.ok (dataResp ans expl res (some tt) msg))).1.showConfirmModal = true ∧
    (dispatchQueryOutcome st (.ok (dataResp ans expl res (some tt) msg))).1.saveAsName =
      replaceFirst tt "t_ai_temp_" "新表格_" ∧
    (dispatchQueryOutcome st (.ok (dataResp ans expl res (some tt) msg))).1.messages =
      st.messages.filter (fun m => ¬ m.isLoading) ++
        [{ role := "assistant",
           content := "✅" ++ " " ++ (optStrOr ans (optStrOr expl "") ++ " (等待确认...)"),
           responseType := some "data" }] ∧
    (dispatchQueryOutcome st (.ok (dataResp ans expl res (some tt) msg))).2 = [] ∧
    Effect.loadTables ∉ (dispatchQueryOutcome st (.ok (dataResp ans expl res (some tt) msg))).2 ∧
    (∀ t, Effect.loadTableData t ∉
      (dispatchQueryOutcome st (.ok (dataResp ans expl res (some tt) msg))).2) := by
  simp [dispatchQueryOutcome, dataResp, optStrOr, optStrTruthy, hne]

/-- C1 witness: the qualifying response with `t_ai_temp_1` on a concrete
state opens the confirmation and emits no refresh/reload effects. -/
theorem dispatch_data_tempTable_opens_confirmation_witness :
    (dispatchQueryOutcome c1State
        (.ok (dataResp (some "已生成预览") none .null (some "t_ai_temp_1") none))).1.confirmData =
      some { temp_table := "t_ai_temp_1", answer := optStrOr (some "已生成预览") (optStrOr none "") } ∧
    (dispatchQueryOutcome c1State
        (.ok (dataResp (some "已生成预览") none .null (some "t_ai_temp_1") none))).2 = [] :=
  ⟨(dispatch_data_tempTable_opens_confirmation c1State (some "已生成预览") none .null
      "t_ai_temp_1" none (by decide)).1,
   (dispatch_data_tempTable_opens_confirmation c1State (some "已生成预览") none .null
      "t_ai_temp_1" none (by decide)).2.2.2.2.1⟩

/-- C2: when a confirmation is pending (stored request, open modal,
active tab) and the Commit/Overwrite resolution either gets
`success: false` from the backend or fails in transport, the client state
is completely unchanged — the stored request survives, the modal stays
open — and no table-list refresh or view reload is requested. -/
theorem confirmOverwrite_failure_keeps_pending (st : AppState) (cd : ConfirmData)
    (outcome : NetOutcome ApiResp)
    (hcd : st.confirmData = some cd) (htab : optStrTruthy st.activeTab = true)
    (hmod : st.showConfirmModal = true)
    (hfail : (∃ e, outcome = .netFail e) ∨ (∃ r, outcome = .ok r ∧ r.success = false)) :
    (handleConfirmOverwrite st outcome).1 = st ∧
    (handleConfirmOverwrite st outcome).1.confirmData = some cd ∧
    (handleConfirmOverwrite st outcome).1.showConfirmModal = true ∧
    Effect.loadTables ∉ (handleConfirmOverwrite st outcome).2 ∧
    (∀ t, Effect.loadTableData t ∉ (handleConfirmOverwrite st outcome).2) := by
  rcases hfail with ⟨e, rfl⟩ | ⟨r, rfl, hr⟩
  · simp [handleConfirmOverwrite, hcd, htab, hmod]
  · simp [handleConfirmOverwrite, hcd, htab, hmod, hr]

/-- C2 witness: a backend `success: false` reply leaves the concrete
pending state untouched. -/
theorem confirmOverwrite_failure_keeps_pending_witness :
    (handleConfirmOverwrite c2State (.ok { success := false, message := some "boom" })).1 = c2State :=
  (confirmOverwrite_failure_keeps_pending c2State
    { temp_table := "t_ai_temp_1", answer := "a" }
    (.ok { success := false, message := some "boom" }) rfl (by decide) rfl
    (Or.inr ⟨{ success := false, message := some "boom" }, rfl, rfl⟩)).1

/-- C3: after any invocation of the Discard resolution the confirmation
state is Idle — the request is cleared and the modal closed — regardless
of the deletion request's outcome (the handler's result does not depend
on it at all); and when the state is already Idle the invocation is a
no-op that changes nothing and emits no request. -/
theorem confirmCancel_always_idle (st : AppState) (outcome : NetOutcome ApiResp)
    (hwf : st.confirmData = none → st.showConfirmModal = false) :
    (handleConfirmCancel st outcome).1.confirmData = none ∧
    (handleConfirmCancel st outcome).1.showConfirmModal = false ∧
    (st.confirmData = none → handleConfirmCancel st outcome = (st, [])) ∧
    (∀ o₂ : NetOutcome ApiResp, handleConfirmCancel st o₂ = handleConfirmCancel st outcome) := by
  cases hcd : st.confirmData with
  | none =>
      refine ⟨?_, ?_, ?_, ?_⟩ <;> simp [handleConfirmCancel, hcd, hwf hcd]
  | some cd =>
      refine ⟨?_, ?_, ?_, ?_⟩ <;> simp [handleConfirmCancel, hcd]

/-- C3 witness: invoking Discard on the Idle state under a failing
deletion outcome is a no-op with no request. -/
theorem confirmCancel_always_idle_witness :
    handleConfirmCancel ({} : AppState) (.netFail "offline") = (({} : AppState), []) :=
  (confirmCancel_always_idle {} (.netFail "offline") (fun _ => rfl)).2.2.1 rfl
